import Mathlib

/-!
Verification of the offline-first synchronization layer of the rusty_pet CLI
(src/cache.rs, src/offline_queue.rs, src/offline_manager.rs, src/api/client.rs).

The Rust code is shallowly embedded: async file I/O becomes explicit state
passing on small state types (one file state per store), `Utc::now()` and the
cache TTL become explicit integer parameters threaded through each call, and
the remote HTTP client becomes a parameter carrying the outcome of each remote
call.  `u32`/`usize` counters become `Nat` (no wrapping arithmetic occurs in
the embedded code paths: retry counters are bounded by `max_retries` and list
lengths are sizes), timestamps become `Int` milliseconds.

reqwest errors are modelled by their classification kinds: the code only ever
inspects `is_timeout()`, `is_connect()`, `is_request()` on a `reqwest::Error`,
and constructs errors either from transport failures or via
`Response::error_for_status()`, which yields a `Kind::Status(code)` error for
non-success statuses.  In reqwest, a status-kind error satisfies `is_status()`
and none of `is_timeout()/is_connect()/is_request()`; the model mirrors that.

`Uuid::new_v4()` is modelled by a monotone counter (`nextUuid`) threaded
through the queue state; the uniqueness the uuid crate provides (collision
freedom of v4 identifiers) becomes uniqueness of counter values.

Payload DTOs (`Pet`, `Device`, history types) are never inspected by the
offline core, so the cache read path is embedded generically in the payload
type, exactly as the Rust `get_cached_data<T>` is generic in `T`.
-/

namespace RustyPet

/-- Model of `reqwest::Error`, by classification kind.  `status code` is the
error produced by `Response::error_for_status()` on a non-success response
(reqwest `Kind::Status`); `timeout`, `connect`, `request` are the transport /
request-construction failures that `send()` can produce. -/
inductive ReqError where
  | timeout
  | connect
  | request
  | status (code : Nat)
  | decode
deriving DecidableEq, Repr

/-- `reqwest::Error::is_timeout`. -/
def ReqError.is_timeout : ReqError → Bool
  | .timeout => true
  | _ => false

/-- `reqwest::Error::is_connect`. -/
def ReqError.is_connect : ReqError → Bool
  | .connect => true
  | _ => false

/-- `reqwest::Error::is_request` (true exactly for `Kind::Request` errors; in
particular false for `Kind::Status` errors made by `error_for_status`). -/
def ReqError.is_request : ReqError → Bool
  | .request => true
  | _ => false

/-- `reqwest::Error::is_status`. -/
def ReqError.is_status : ReqError → Bool
  | .status _ => true
  | _ => false

/-- Display text of an error, standing in for reqwest's `Display` impl; only
ever interpolated into log / wrapper messages, never inspected. -/
def ReqError.message : ReqError → String
  | .timeout => "operation timed out"
  | .connect => "connection failed"
  | .request => "request failed"
  | .status c => "status code " ++ toString c
  | .decode => "decode failed"

/-- `StatusCode::is_success` (2xx). -/
def is_success_status (code : Nat) : Bool :=
  decide (200 ≤ code ∧ code < 300)

/-- `StatusCode::is_client_error` (4xx). -/
def is_client_error_status (code : Nat) : Bool :=
  decide (400 ≤ code ∧ code < 500)

/-- Model of `errors.rs` `CliError`, restricted to the constructors the
offline core builds (`network_error(msg, recoverable)` and the
`system_error_with_source` wrappers, whose source boxes are dropped). -/
inductive CliError where
  | network_error (message : String) (recoverable : Bool)
  | system_error (message : String)
deriving DecidableEq, Repr

/-- `api/client.rs` `CurfewTime`. -/
structure CurfewTime where
  enabled : Bool
  lock_time : String
  unlock_time : String
deriving DecidableEq, Repr

/-- `api/client.rs` `PetLocationUpdate`. -/
structure PetLocationUpdate where
  pet_id : Nat
  location : Nat
deriving DecidableEq, Repr

/-- `api/client.rs` `DeviceCommandType`. -/
inductive DeviceCommandType where
  | SetLockState (lock_state : Nat)
  | SetCurfew (curfew_times : List CurfewTime)
deriving DecidableEq, Repr

/-- `api/client.rs` `DeviceCommand`. -/
structure DeviceCommand where
  device_id : Nat
  command_type : DeviceCommandType
deriving DecidableEq, Repr

/-- `api/client.rs` `BatchError` (one failed identifier with error text). -/
structure BatchError where
  id : Nat
  error : String
deriving DecidableEq, Repr

/-- `api/client.rs` `BatchResult` (partial result of a batch call). -/
structure BatchResult where
  successful : List Nat
  failed : List BatchError
  total_processed : Nat
deriving DecidableEq, Repr

/-- `offline_queue.rs` `QueuedOperation`: the closed tagged union of queued
mutation intents. -/
inductive QueuedOperation where
  | SetPetLocation (pet_id : Nat) (location : Nat)
  | SetDeviceLockState (device_id : Nat) (lock_state : Nat)
  | SetDeviceCurfew (device_id : Nat) (curfew_times : List CurfewTime)
  | BatchSetPetLocations (updates : List PetLocationUpdate)
  | BatchDeviceControl (commands : List DeviceCommand)
deriving DecidableEq, Repr

/-- `offline_queue.rs` `QueuedOperationEntry`.  `id` models the
`Uuid::new_v4().to_string()` identifier by its generation index. -/
structure QueuedOperationEntry where
  id : Nat
  operation : QueuedOperation
  queued_at : Int
  retry_count : Nat
  max_retries : Nat
deriving DecidableEq, Repr

/-- `QueuedOperationEntry::new`: fresh entry with `retry_count = 0` and
`max_retries = 3` (hard-coded in the constructor).  The generated uuid and
`Utc::now()` are passed in explicitly. -/
def QueuedOperationEntry.new (freshId : Nat) (now : Int)
    (operation : QueuedOperation) : QueuedOperationEntry :=
  { id := freshId
    operation := operation
    queued_at := now
    retry_count := 0
    max_retries := 3 }

/-- `QueuedOperationEntry::can_retry`. -/
def QueuedOperationEntry.can_retry (e : QueuedOperationEntry) : Bool :=
  decide (e.retry_count < e.max_retries)

/-- `QueuedOperationEntry::increment_retry`. -/
def QueuedOperationEntry.increment_retry
    (e : QueuedOperationEntry) : QueuedOperationEntry :=
  { e with retry_count := e.retry_count + 1 }

/-- `offline_queue.rs` `OperationResult`: outcome classification of replaying
one queued operation. -/
inductive OperationResult where
  | Success
  | Retry (message : String)
  | Fail (message : String)
deriving DecidableEq, Repr

/-- `offline_queue.rs` `SyncResult`: summary returned by `synchronize`. -/
structure SyncResult where
  total_operations : Nat
  successful : Nat
  failed : Nat
  retried : Nat
deriving DecidableEq, Repr

/-- State of the single queue file (`operation_queue.json`), by how
`load_queue` perceives it: absent, readable-but-blank, readable-but-unparsable,
unreadable (I/O error on read), or a well-formed serialized entry list. -/
inductive QueueFileState where
  | missing
  | blank
  | corrupt
  | unreadable
  | stored (entries : List QueuedOperationEntry)
deriving DecidableEq, Repr

/-- `OperationQueue::load_queue`: missing file and blank content yield an
empty queue; a read failure or unparsable content is surfaced as an error.
`load_queue` never writes, so the file state is unchanged by loading. -/
def OperationQueue.load_queue
    (f : QueueFileState) : Except CliError (List QueuedOperationEntry) :=
  match f with
  | .missing => .ok []
  | .blank => .ok []
  | .unreadable =>
    .error (.system_error "Failed to read operation queue file")
  | .corrupt =>
    .error (.system_error "Failed to parse operation queue file")
  | .stored entries => .ok entries

/-- `OperationQueue::save_queue` (serialization assumed to succeed and the
write not to fail; storage write failures are outside the claims considered
here). -/
def OperationQueue.save_queue
    (queue : List QueuedOperationEntry) : QueueFileState :=
  .stored queue

/-- Queue state threaded through mutating calls: the queue file plus the
uuid-generation counter standing in for `Uuid::new_v4` freshness. -/
structure QueueState where
  file : QueueFileState
  nextUuid : Nat
deriving DecidableEq, Repr

/-- `OperationQueue::enqueue`: build the fresh entry (consuming a uuid), load
the persisted list, append, save.  A load failure propagates (`?`) after the
uuid was already generated. -/
def OperationQueue.enqueue (st : QueueState) (now : Int)
    (operation : QueuedOperation) : Except CliError Nat × QueueState :=
  let entry := QueuedOperationEntry.new st.nextUuid now operation
  match OperationQueue.load_queue st.file with
  | .error e => (.error e, { st with nextUuid := st.nextUuid + 1 })
  | .ok queue =>
    (.ok entry.id,
      { file := OperationQueue.save_queue (queue ++ [entry])
        nextUuid := st.nextUuid + 1 })

/-- `OperationQueue::clear`: saves an empty list without loading first. -/
def OperationQueue.clear (_f : QueueFileState) :
    Except CliError Unit × QueueFileState :=
  (.ok (), OperationQueue.save_queue [])

/-- Output of the `synchronize` drain loop: the list of operations handed to
the executor in call order (instrumentation for stating invocation
properties), the `operations_to_keep` list, and the three counters. -/
structure SyncLoopOut where
  trace : List QueuedOperation
  kept : List QueuedOperationEntry
  successful : Nat
  failed : Nat
  retried : Nat
deriving DecidableEq, Repr

/-- The `for mut entry in queue` loop of `OperationQueue::synchronize`:
Success drops the entry; Retry keeps it with an incremented counter when
`can_retry`, otherwise counts it failed and drops it; Fail counts it failed
and drops it. -/
def syncLoop (executor : QueuedOperation → OperationResult) :
    List QueuedOperationEntry → SyncLoopOut
  | [] => { trace := [], kept := [], successful := 0, failed := 0, retried := 0 }
  | entry :: rest =>
    let out := syncLoop executor rest
    match executor entry.operation with
    | .Success =>
      { out with
        trace := entry.operation :: out.trace
        successful := out.successful + 1 }
    | .Retry _ =>
      if entry.can_retry then
        { out with
          trace := entry.operation :: out.trace
          kept := entry.increment_retry :: out.kept
          retried := out.retried + 1 }
      else
        { out with
          trace := entry.operation :: out.trace
          failed := out.failed + 1 }
    | .Fail _ =>
      { out with
        trace := entry.operation :: out.trace
        failed := out.failed + 1 }

/-- `OperationQueue::synchronize`: load the queue; an empty queue returns the
zero summary without saving; otherwise run the drain loop, save
`operations_to_keep`, and return the tallies. -/
def OperationQueue.synchronize (executor : QueuedOperation → OperationResult)
    (f : QueueFileState) : Except CliError SyncResult × QueueFileState :=
  match OperationQueue.load_queue f with
  | .error e => (.error e, f)
  | .ok queue =>
    if queue.length = 0 then
      (.ok { total_operations := 0, successful := 0, failed := 0, retried := 0 }, f)
    else
      let out := syncLoop executor queue
      (.ok { total_operations := queue.length
             successful := out.successful
             failed := out.failed
             retried := out.retried },
        OperationQueue.save_queue out.kept)

/-- Repeated `synchronize` calls (for the retry-bound claims): the queue-file
state after `n` successive calls. -/
def syncIter (executor : QueuedOperation → OperationResult) :
    Nat → QueueFileState → QueueFileState
  | 0, f => f
  | n + 1, f => syncIter executor n (OperationQueue.synchronize executor f).2

/-- Entries currently persisted in a queue-file state (empty for the
non-well-formed states, whose load yields no entries or an error). -/
def QueueFileState.entries : QueueFileState → List QueuedOperationEntry
  | .stored q => q
  | _ => []

/-- `offline_queue.rs` `check_connectivity`: a transport failure of the HEAD
probe gives `false`; a response gives
`status.is_success() || status.is_client_error()`. -/
def check_connectivity (outcome : Except ReqError Nat) : Bool :=
  match outcome with
  | .error _ => false
  | .ok status => is_success_status status || is_client_error_status status

/-- `cache.rs` `CachedData<T>`. -/
structure CachedData (α : Type) where
  data : α
  cached_at : Int
  expires_at : Int
deriving DecidableEq, Repr

/-- `CachedData::new`: `cached_at = now`, `expires_at = now + ttl`. -/
def CachedData.new {α : Type} (now : Int) (data : α) (ttl : Int) :
    CachedData α :=
  { data := data, cached_at := now, expires_at := now + ttl }

/-- `CachedData::is_expired`: `Utc::now() > expires_at`. -/
def CachedData.is_expired {α : Type} (now : Int) (c : CachedData α) : Bool :=
  decide (now > c.expires_at)

/-- State of one cache-entry file (one key of the cache directory), by how
`get_cached_data` perceives it: absent, unreadable-or-unparsable (the
`read_cache_file` error branch), or a well-formed serialized `CachedData`. -/
inductive CacheFileState (α : Type) where
  | missing
  | unreadable
  | stored (entry : CachedData α)
deriving DecidableEq, Repr

/-- `CacheManager::get_cached_data` for one key: a missing file is a silent
miss; a read/parse failure is a silent miss that leaves the file in place; an
expired entry is a miss that also removes the file; a fresh entry is a hit.
Returned alongside the result is the cache-file state after the call. -/
def CacheManager.get_cached_data {α : Type} (now : Int)
    (f : CacheFileState α) : Option (CachedData α) × CacheFileState α :=
  match f with
  | .missing => (none, .missing)
  | .unreadable => (none, .unreadable)
  | .stored cached_data =>
    if cached_data.is_expired now then (none, .missing)
    else (some cached_data, .stored cached_data)

/-- `CacheManager::store_cached_data` for one key (write assumed to succeed;
on a write failure the orchestrator only logs a warning, so the claims here
are insensitive to it). -/
def CacheManager.store_cached_data {α : Type} (entry : CachedData α) :
    CacheFileState α :=
  .stored entry

/-- The remote-fetch half of `OfflineManager::get_pets` (and of the
line-for-line identical `get_devices`): on API success, cache the fresh
payload via `CacheManager::cache_pets` (a `store_cached_data` of
`CachedData::new(data, ttl)`) and return `(data, false)`; on API failure, try
the cache again through the same `CacheManager::get_pets` read, returning
`(cached, true)` on a hit and a network error on a miss. -/
def OfflineManager.get_pets_fetch {α : Type} (now ttl : Int)
    (apiResp : Except ReqError α) (cache : CacheFileState α) :
    Except CliError (α × Bool) × CacheFileState α :=
  match apiResp with
  | .ok pets => (.ok (pets, false), CacheManager.store_cached_data (CachedData.new now pets ttl))
  | .error e =>
    match CacheManager.get_cached_data now cache with
    | (some cached_pets, cache1) => (.ok (cached_pets.data, true), cache1)
    | (none, cache1) =>
      (.error (.network_error
        ("Failed to get pets and no cached data available: " ++ e.message) true),
        cache1)

/-- `OfflineManager::get_pets` (and, identically keyed on `devices.json`,
`OfflineManager::get_devices`): unless `force_refresh`, first try a cache
read and return `(data, true)` on a hit; otherwise fetch from the API with
cache fallback.  The remote call's outcome is passed in as `apiResp`. -/
def OfflineManager.get_pets {α : Type} (now ttl : Int) (force_refresh : Bool)
    (apiResp : Except ReqError α) (cache : CacheFileState α) :
    Except CliError (α × Bool) × CacheFileState α :=
  if force_refresh then OfflineManager.get_pets_fetch now ttl apiResp cache
  else
    match CacheManager.get_cached_data now cache with
    | (some cached_pets, cache1) => (.ok (cached_pets.data, true), cache1)
    | (none, cache1) => OfflineManager.get_pets_fetch now ttl apiResp cache1

/-- The tail of `Client::set_pet_location` / `Client::set_lock_state` /
`Client::set_curfew`: a transport error from `send()` propagates; a response
returns `Ok(())` when `status.is_success()` and otherwise the
`error_for_status()` error, which is a status-kind `reqwest::Error`. -/
def Client.set_request_outcome (sendOutcome : Except ReqError Nat) :
    Except ReqError Unit :=
  match sendOutcome with
  | .error e => .error e
  | .ok status =>
    if is_success_status status then .ok ()
    else .error (.status status)

/-- `OfflineManager::should_queue_operation`: queue only for
`is_timeout() || is_connect() || is_request()`. -/
def should_queue_operation (e : ReqError) : Bool :=
  e.is_timeout || e.is_connect || e.is_request

/-- `offline_manager.rs` free function `is_retryable_error`: same
classification as `should_queue_operation`. -/
def is_retryable_error (e : ReqError) : Bool :=
  e.is_timeout || e.is_connect || e.is_request

/-- `OfflineManager::set_pet_location`: attempt the remote write (its outcome
passed in as `clientResult`); on success nothing is queued; on failure, if
`should_queue_operation` the mutation is enqueued and deferred success is
returned, otherwise a network error is surfaced. -/
def OfflineManager.set_pet_location (clientResult : Except ReqError Unit)
    (pet_id location : Nat) (st : QueueState) (now : Int) :
    Except CliError Unit × QueueState :=
  match clientResult with
  | .ok _ => (.ok (), st)
  | .error e =>
    if should_queue_operation e then
      match OperationQueue.enqueue st now (.SetPetLocation pet_id location) with
      | (.ok _, st1) => (.ok (), st1)
      | (.error qe, st1) => (.error qe, st1)
    else
      (.error (.network_error ("Failed to set pet location: " ++ e.message) false), st)

/-- `OfflineManager::set_device_lock_state`: same shape as
`set_pet_location` with a `SetDeviceLockState` operation. -/
def OfflineManager.set_device_lock_state (clientResult : Except ReqError Unit)
    (device_id lock_state : Nat) (st : QueueState) (now : Int) :
    Except CliError Unit × QueueState :=
  match clientResult with
  | .ok _ => (.ok (), st)
  | .error e =>
    if should_queue_operation e then
      match OperationQueue.enqueue st now (.SetDeviceLockState device_id lock_state) with
      | (.ok _, st1) => (.ok (), st1)
      | (.error qe, st1) => (.error qe, st1)
    else
      (.error (.network_error ("Failed to set device lock state: " ++ e.message) false), st)

/-- The failed-sublist re-derivation in `OfflineManager::batch_set_pet_locations`:
`result.failed.iter().filter_map(|error| updates.iter().find(|u| u.pet_id == error.id).cloned())`. -/
def failedPetUpdates (failed : List BatchError)
    (updates : List PetLocationUpdate) : List PetLocationUpdate :=
  failed.filterMap (fun err => updates.find? (fun u => u.pet_id == err.id))

/-- The failed-sublist re-derivation in `OfflineManager::batch_device_control`:
`result.failed.iter().filter_map(|error| commands.iter().find(|c| c.device_id == error.id).cloned())`. -/
def failedDeviceCommands (failed : List BatchError)
    (commands : List DeviceCommand) : List DeviceCommand :=
  failed.filterMap (fun err => commands.find? (fun c => c.device_id == err.id))

/-- `OfflineManager::batch_set_pet_locations`: on an `Ok` partial result with
a non-empty failed set, re-derive the failed sub-list and, when non-empty,
enqueue it as one `BatchSetPetLocations` operation; on an `Err`, enqueue the
whole batch when the error is queue-eligible, else surface a network error. -/
def OfflineManager.batch_set_pet_locations
    (clientResult : Except ReqError BatchResult)
    (updates : List PetLocationUpdate) (st : QueueState) (now : Int) :
    Except CliError Unit × QueueState :=
  match clientResult with
  | .ok result =>
    if result.failed.isEmpty then (.ok (), st)
    else
      let failed_updates := failedPetUpdates result.failed updates
      if failed_updates.isEmpty then (.ok (), st)
      else
        match OperationQueue.enqueue st now (.BatchSetPetLocations failed_updates) with
        | (.ok _, st1) => (.ok (), st1)
        | (.error qe, st1) => (.error qe, st1)
  | .error e =>
    if should_queue_operation e then
      match OperationQueue.enqueue st now (.BatchSetPetLocations updates) with
      | (.ok _, st1) => (.ok (), st1)
      | (.error qe, st1) => (.error qe, st1)
    else
      (.error (.network_error ("Failed to batch set pet locations: " ++ e.message) false), st)

/-- `OfflineManager::batch_device_control`: same shape as
`batch_set_pet_locations` with `DeviceCommand` items keyed by `device_id`. -/
def OfflineManager.batch_device_control
    (clientResult : Except ReqError BatchResult)
    (commands : List DeviceCommand) (st : QueueState) (now : Int) :
    Except CliError Unit × QueueState :=
  match clientResult with
  | .ok result =>
    if result.failed.isEmpty then (.ok (), st)
    else
      let failed_commands := failedDeviceCommands result.failed commands
      if failed_commands.isEmpty then (.ok (), st)
      else
        match OperationQueue.enqueue st now (.BatchDeviceControl failed_commands) with
        | (.ok _, st1) => (.ok (), st1)
        | (.error qe, st1) => (.error qe, st1)
  | .error e =>
    if should_queue_operation e then
      match OperationQueue.enqueue st now (.BatchDeviceControl commands) with
      | (.ok _, st1) => (.ok (), st1)
      | (.error qe, st1) => (.error qe, st1)
    else
      (.error (.network_error ("Failed to batch control devices: " ++ e.message) false), st)

/-- Outcomes of the remote client's calls during a `synchronize_when_online`
replay, one function per client method the replay executor dispatches to. -/
structure RemoteOutcomes where
  set_pet_location : Nat → Nat → Except ReqError Unit
  set_lock_state : Nat → Nat → Except ReqError Unit
  set_curfew : Nat → List CurfewTime → Except ReqError Unit
  batch_set_pet_locations : List PetLocationUpdate → Except ReqError BatchResult
  batch_device_control : List DeviceCommand → Except ReqError BatchResult

/-- The executor closure built in `OfflineManager::synchronize_when_online`:
dispatch on the operation kind, call the client, map `Ok(_)` to `Success`
(for batch kinds this ignores any failed sub-items inside the `BatchResult`),
and classify an `Err` by `is_retryable_error` into `Retry` or `Fail`. -/
def sync_executor (env : RemoteOutcomes) (operation : QueuedOperation) :
    OperationResult :=
  match operation with
  | .SetPetLocation pet_id location =>
    match env.set_pet_location pet_id location with
    | .ok _ => .Success
    | .error e =>
      if is_retryable_error e then .Retry ("Network error: " ++ e.message)
      else .Fail ("Permanent error: " ++ e.message)
  | .SetDeviceLockState device_id lock_state =>
    match env.set_lock_state device_id lock_state with
    | .ok _ => .Success
    | .error e =>
      if is_retryable_error e then .Retry ("Network error: " ++ e.message)
      else .Fail ("Permanent error: " ++ e.message)
  | .SetDeviceCurfew device_id curfew_times =>
    match env.set_curfew device_id curfew_times with
    | .ok _ => .Success
    | .error e =>
      if is_retryable_error e then .Retry ("Network error: " ++ e.message)
      else .Fail ("Permanent error: " ++ e.message)
  | .BatchSetPetLocations updates =>
    match env.batch_set_pet_locations updates with
    | .ok _ => .Success
    | .error e =>
      if is_retryable_error e then .Retry ("Network error: " ++ e.message)
      else .Fail ("Permanent error: " ++ e.message)
  | .BatchDeviceControl commands =>
    match env.batch_device_control commands with
    | .ok _ => .Success
    | .error e =>
      if is_retryable_error e then .Retry ("Network error: " ++ e.message)
      else .Fail ("Permanent error: " ++ e.message)

/-- Sequential enqueueing of a list of operations, propagating the first
storage error (used to state the append-only property of `enqueue`). -/
def enqueueAll (st : QueueState) (now : Int) :
    List QueuedOperation → Except CliError (QueueState × List Nat)
  | [] => .ok (st, [])
  | op :: ops =>
    match OperationQueue.enqueue st now op with
    | (.ok oid, st1) =>
      match enqueueAll st1 now ops with
      | .ok (st2, ids) => .ok (st2, oid :: ids)
      | .error e => .error e
    | (.error e, _) => .error e

/-- The entries `n` successive successful enqueues append: fresh entries with
consecutive uuid indices starting at `c`. -/
def buildEntries (c : Nat) (now : Int) :
    List QueuedOperation → List QueuedOperationEntry
  | [] => []
  | op :: ops => QueuedOperationEntry.new c now op :: buildEntries (c + 1) now ops

/-- A remote environment in which every single-item write fails with an HTTP
500 status error (as produced by `error_for_status`). -/
def env500 : RemoteOutcomes :=
  { set_pet_location := fun _ _ => .error (.status 500)
    set_lock_state := fun _ _ => .error (.status 500)
    set_curfew := fun _ _ => .error (.status 500)
    batch_set_pet_locations := fun _ => .error (.status 500)
    batch_device_control := fun _ => .error (.status 500) }

/-- Claim C1 (code bug): at the failing input — the pets cache holds an entry
whose TTL has elapsed (`expires_at = 5 < now = 10`) and the remote call fails
with a timeout — the orchestrator surfaces the network error instead of
returning the stale payload with `from_cache = true`.  The cache read used on
the fallback path is the same fresh-only `get_pets`, which returns `None` for
the expired entry and removes the file, so no stale-allowed read exists; this
contradicts the code's own comment "API failed, try to use cached data even
if expired" (offline_manager.rs).  The theorem evaluates the model at that
input: the fresh read of the expired entry yields `none` and deletes the
file, and the whole `get_pets` call returns the error, not the cached data. -/
theorem c1_stale_fallback_code_bug :
    CacheManager.get_cached_data 10
        (CacheFileState.stored ({ data := [1], cached_at := 0, expires_at := 5 } : CachedData (List Nat)))
      = (none, CacheFileState.missing) ∧
    OfflineManager.get_pets 10 100 false (Except.error ReqError.timeout)
        (CacheFileState.stored ({ data := [1], cached_at := 0, expires_at := 5 } : CachedData (List Nat)))
      = (Except.error (CliError.network_error
          "Failed to get pets and no cached data available: operation timed out" true),
         CacheFileState.missing) ∧
    (OfflineManager.get_pets 10 100 false (Except.error ReqError.timeout)
        (CacheFileState.stored ({ data := [1], cached_at := 0, expires_at := 5 } : CachedData (List Nat)))).1
      ≠ Except.ok ([1], true) := by
  refine ⟨rfl, rfl, fun h => Except.noConfusion h⟩

/-- Claim C2 (counterexample): a server-side 500 from the remote client is a
status-kind `reqwest::Error`, for which `should_queue_operation` and
`is_retryable_error` are both `false`.  Hence `set_pet_location` surfaces the
error and leaves the queue untouched (not success-with-deferred), and during
reconciliation the replay executor classifies the 500 as `Fail`, so
`synchronize` drops the entry as permanently failed rather than keeping it
for retry. -/
theorem c2_5xx_counterexample :
    Client.set_request_outcome (Except.ok 500) = Except.error (ReqError.status 500) ∧
    should_queue_operation (ReqError.status 500) = false ∧
    OfflineManager.set_pet_location (Client.set_request_outcome (Except.ok 500)) 1 2
        { file := .stored [], nextUuid := 0 } 0
      = (Except.error (CliError.network_error "Failed to set pet location: status code 500" false),
         { file := .stored [], nextUuid := 0 }) ∧
    (OfflineManager.set_pet_location (Client.set_request_outcome (Except.ok 500)) 1 2
        { file := .stored [], nextUuid := 0 } 0).1 ≠ Except.ok () ∧
    is_retryable_error (ReqError.status 500) = false ∧
    sync_executor env500 (QueuedOperation.SetPetLocation 1 2)
      = OperationResult.Fail "Permanent error: status code 500" ∧
    OperationQueue.synchronize (sync_executor env500)
        (.stored [QueuedOperationEntry.new 0 0 (QueuedOperation.SetPetLocation 1 2)])
      = (Except.ok { total_operations := 1, successful := 0, failed := 1, retried := 0 },
         .stored []) := by
  refine ⟨rfl, rfl, rfl, fun h => Except.noConfusion h, rfl, rfl, rfl⟩

/-- Claim C2 (amended): for every 5xx status, the resulting status-kind error
is classified as permanent, not transient: `should_queue_operation` and
`is_retryable_error` reject it, so a failing single-item write
(`set_pet_location`, `set_device_lock_state`) surfaces a network error with
the queue state unchanged, and during reconciliation a replay failing with
that error is classified `Fail` and the entry is dropped as failed. -/
theorem c2_5xx_permanent_amended (s : Nat) (h5 : 500 ≤ s) (h6 : s < 600) :
    should_queue_operation (ReqError.status s) = false ∧
    is_retryable_error (ReqError.status s) = false ∧
    (∀ pid loc st now,
      OfflineManager.set_pet_location (Client.set_request_outcome (Except.ok s)) pid loc st now
        = (Except.error (CliError.network_error
            ("Failed to set pet location: " ++ (ReqError.status s).message) false), st)) ∧
    (∀ did ls st now,
      OfflineManager.set_device_lock_state (Client.set_request_outcome (Except.ok s)) did ls st now
        = (Except.error (CliError.network_error
            ("Failed to set device lock state: " ++ (ReqError.status s).message) false), st)) ∧
    (∀ env pid loc, env.set_pet_location pid loc = Except.error (ReqError.status s) →
      sync_executor env (QueuedOperation.SetPetLocation pid loc)
        = OperationResult.Fail ("Permanent error: " ++ (ReqError.status s).message)) ∧
    (∀ env (e : QueuedOperationEntry) pid loc,
      e.operation = QueuedOperation.SetPetLocation pid loc →
      env.set_pet_location pid loc = Except.error (ReqError.status s) →
      OperationQueue.synchronize (sync_executor env) (.stored [e])
        = (Except.ok { total_operations := 1, successful := 0, failed := 1, retried := 0 },
           .stored [])) := by
  have hstat : is_success_status s = false := by
    simp only [is_success_status, decide_eq_false_iff_not]
    omega
  have hout : Client.set_request_outcome (Except.ok s)
      = Except.error (ReqError.status s) := by
    simp [Client.set_request_outcome, hstat]
  have hq : should_queue_operation (ReqError.status s) = false := rfl
  have hr : is_retryable_error (ReqError.status s) = false := rfl
  refine ⟨hq, hr, ?_, ?_, ?_, ?_⟩
  · intro pid loc st now
    simp [OfflineManager.set_pet_location, hout, hq]
  · intro did ls st now
    simp [OfflineManager.set_device_lock_state, hout, hq]
  · intro env pid loc henv
    simp [sync_executor, henv, hr]
  · intro env e pid loc hop henv
    simp [OperationQueue.synchronize, OperationQueue.load_queue, syncLoop,
      OperationQueue.save_queue, hop, sync_executor, henv, hr]

/-- Witness for `c2_5xx_permanent_amended` at `s = 503`. -/
theorem c2_5xx_permanent_amended_witness :
    should_queue_operation (ReqError.status 503) = false ∧
    OfflineManager.set_pet_location (Client.set_request_outcome (Except.ok 503)) 1 2
        { file := .stored [], nextUuid := 0 } 0
      = (Except.error (CliError.network_error
          ("Failed to set pet location: " ++ (ReqError.status 503).message) false),
         { file := .stored [], nextUuid := 0 }) := by
  have h := c2_5xx_permanent_amended 503 (by decide) (by decide)
  exact ⟨h.1, h.2.2.1 1 2 { file := .stored [], nextUuid := 0 } 0⟩

/-- Claim C3 (counterexample): a corrupt (unparseable) queue file is not
treated as an empty queue — `load_queue` surfaces a parse error instead of
succeeding with zero entries. -/
theorem c3_corrupt_counterexample :
    OperationQueue.load_queue QueueFileState.corrupt
        = Except.error (CliError.system_error "Failed to parse operation queue file") ∧
    OperationQueue.load_queue QueueFileState.corrupt ≠ Except.ok [] := by
  exact ⟨rfl, fun h => Except.noConfusion h⟩

/-- Claim C3 (amended): a missing queue file or a blank one is treated as an
empty queue on load; a corrupt (unparseable) file instead surfaces a parse
error.  In neither case does loading rewrite the file: an `enqueue` against a
corrupt file fails with the propagated parse error and leaves the file
corrupt, while `clear` (which saves without loading) succeeds and overwrites
the corrupt content with an empty list. -/
theorem c3_corrupt_load_amended :
    OperationQueue.load_queue QueueFileState.missing = Except.ok [] ∧
    OperationQueue.load_queue QueueFileState.blank = Except.ok [] ∧
    OperationQueue.load_queue QueueFileState.corrupt
      = Except.error (CliError.system_error "Failed to parse operation queue file") ∧
    OperationQueue.enqueue { file := .corrupt, nextUuid := 0 } 0
        (QueuedOperation.SetPetLocation 1 1)
      = (Except.error (CliError.system_error "Failed to parse operation queue file"),
         { file := .corrupt, nextUuid := 1 }) ∧
    OperationQueue.clear QueueFileState.corrupt = (Except.ok (), .stored []) := by
  exact ⟨rfl, rfl, rfl, rfl, rfl⟩

/-- Claim C4 (counterexample): the connectivity probe does not return `true`
for every response status — a 500 or a 301 response yields `false`, even
though the remote responded. -/
theorem c4_probe_counterexample :
    check_connectivity (Except.ok 500) = false ∧
    check_connectivity (Except.ok 301) = false := by
  decide

/-- Claim C4 (amended): `check_connectivity` returns `true` exactly when the
remote responds with a 2xx or 4xx status; every other response status (1xx,
3xx, 5xx) and every transport failure (timeout, connection refusal, DNS
failure) yields `false`. -/
theorem c4_probe_amended (outcome : Except ReqError Nat) :
    check_connectivity outcome = true ↔
      ∃ s, outcome = Except.ok s ∧
        ((200 ≤ s ∧ s < 300) ∨ (400 ≤ s ∧ s < 500)) := by
  cases outcome with
  | error e => simp [check_connectivity]
  | ok s =>
    simp [check_connectivity, is_success_status, is_client_error_status]

/-- Drain-loop behaviour under an all-success executor: every entry is
invoked, nothing is kept, and every entry is counted successful. -/
lemma syncLoop_all_success (executor : QueuedOperation → OperationResult)
    (h : ∀ op, executor op = OperationResult.Success) :
    ∀ q : List QueuedOperationEntry,
      syncLoop executor q =
        { trace := q.map (fun e => e.operation), kept := [],
          successful := q.length, failed := 0, retried := 0 } := by
  intro q
  induction q with
  | nil => rfl
  | cons e rest ih =>
    simp [syncLoop, h e.operation, ih]

/-- The drain loop distributes over list append, fieldwise. -/
lemma syncLoop_append (executor : QueuedOperation → OperationResult)
    (l1 l2 : List QueuedOperationEntry) :
    syncLoop executor (l1 ++ l2) =
      { trace := (syncLoop executor l1).trace ++ (syncLoop executor l2).trace
        kept := (syncLoop executor l1).kept ++ (syncLoop executor l2).kept
        successful := (syncLoop executor l1).successful + (syncLoop executor l2).successful
        failed := (syncLoop executor l1).failed + (syncLoop executor l2).failed
        retried := (syncLoop executor l1).retried + (syncLoop executor l2).retried } := by
  induction l1 with
  | nil =>
    simp only [List.nil_append, syncLoop, Nat.zero_add]
  | cons e rest ih =>
    simp only [List.cons_append, syncLoop]
    cases hx : executor e.operation with
    | Success =>
      simp [ih, SyncLoopOut.mk.injEq]
      all_goals omega
    | Retry msg =>
      by_cases hc : e.can_retry = true
      · simp [hc, ih, SyncLoopOut.mk.injEq]
        all_goals omega
      · simp [hc, ih, SyncLoopOut.mk.injEq]
        all_goals omega
    | Fail msg =>
      simp [ih, SyncLoopOut.mk.injEq]
      all_goals omega

/-- One `synchronize` call on a single-entry queue whose executor reports a
transient failure, while the retry budget is not exhausted: the entry is kept
with its counter incremented and the call reports one retried operation. -/
lemma synchronize_retry_step (executor : QueuedOperation → OperationResult)
    (hR : ∀ op, ∃ msg, executor op = OperationResult.Retry msg)
    (x : QueuedOperationEntry) (hcr : x.retry_count < x.max_retries) :
    OperationQueue.synchronize executor (.stored [x])
      = (Except.ok { total_operations := 1, successful := 0, failed := 0, retried := 1 },
         .stored [x.increment_retry]) := by
  obtain ⟨msg, hm⟩ := hR x.operation
  simp [OperationQueue.synchronize, OperationQueue.load_queue, syncLoop, hm,
    QueuedOperationEntry.can_retry, hcr, OperationQueue.save_queue]

/-- One `synchronize` call on a single-entry queue whose executor reports a
transient failure, when the retry budget is exhausted: the entry is dropped
and counted failed. -/
lemma synchronize_retry_exhausted (executor : QueuedOperation → OperationResult)
    (hR : ∀ op, ∃ msg, executor op = OperationResult.Retry msg)
    (x : QueuedOperationEntry) (hcr : ¬ x.retry_count < x.max_retries) :
    OperationQueue.synchronize executor (.stored [x])
      = (Except.ok { total_operations := 1, successful := 0, failed := 1, retried := 0 },
         .stored []) := by
  obtain ⟨msg, hm⟩ := hR x.operation
  simp [OperationQueue.synchronize, OperationQueue.load_queue, syncLoop, hm,
    QueuedOperationEntry.can_retry, hcr, OperationQueue.save_queue]

/-- Under an always-retry executor, `k` successive `synchronize` calls on a
single-entry queue advance the entry's retry counter by `k`, as long as the
budget is not exceeded. -/
lemma syncIter_single (executor : QueuedOperation → OperationResult)
    (hR : ∀ op, ∃ msg, executor op = OperationResult.Retry msg) :
    ∀ (k : Nat) (x : QueuedOperationEntry),
      x.retry_count + k ≤ x.max_retries →
      syncIter executor k (.stored [x])
        = .stored [{ x with retry_count := x.retry_count + k }] := by
  intro k
  induction k with
  | zero =>
    intro x _
    rfl
  | succ n ih =>
    intro x hx
    have hcr : x.retry_count < x.max_retries := by omega
    have hstep := synchronize_retry_step executor hR x hcr
    have hrec := ih x.increment_retry
      (by simp [QueuedOperationEntry.increment_retry]; omega)
    simp only [syncIter, hstep]
    rw [hrec]
    simp [QueuedOperationEntry.increment_retry, QueuedOperationEntry.mk.injEq]
    omega

/-- `synchronize` on an empty stored queue is a no-op, so iterating it stays
at the empty queue. -/
lemma syncIter_nil (executor : QueuedOperation → OperationResult) :
    ∀ k : Nat, syncIter executor k (.stored []) = .stored [] := by
  intro k
  induction k with
  | zero => rfl
  | succ n ih =>
    simp only [syncIter, OperationQueue.synchronize, OperationQueue.load_queue]
    exact ih

/-- Iterating `synchronize` decomposes over addition of step counts. -/
lemma syncIter_add (executor : QueuedOperation → OperationResult) :
    ∀ (a b : Nat) (f : QueueFileState),
      syncIter executor (a + b) f = syncIter executor b (syncIter executor a f) := by
  intro a
  induction a with
  | zero =>
    intro b f
    rw [Nat.zero_add]
    rfl
  | succ n ih =>
    intro b f
    rw [Nat.succ_add]
    simp only [syncIter]
    exact ih b _

/-- Claim C5: with a single queued entry (fresh, `retry_count = 0`) and an
executor that always reports a transient failure, each successive
`synchronize` call increments the entry's retry counter by exactly one and
keeps it, so `retry_count ≤ max_retries` holds for every entry present after
any number of calls; each such call reports one retried operation; and after
`max_retries` consecutive transient failures the next call drops the entry
and reports it as failed (`failed = 1, retried = 0`), leaving the queue
empty. -/
theorem c5_retry_bound (executor : QueuedOperation → OperationResult)
    (hR : ∀ op, ∃ msg, executor op = OperationResult.Retry msg)
    (e : QueuedOperationEntry) (h0 : e.retry_count = 0) :
    (∀ k, k ≤ e.max_retries →
      syncIter executor k (.stored [e]) = .stored [{ e with retry_count := k }]) ∧
    (∀ k x, x ∈ (syncIter executor k (.stored [e])).entries →
      x.retry_count ≤ x.max_retries) ∧
    (∀ k, k < e.max_retries →
      OperationQueue.synchronize executor (syncIter executor k (.stored [e]))
        = (Except.ok { total_operations := 1, successful := 0, failed := 0, retried := 1 },
           .stored [{ e with retry_count := k + 1 }])) ∧
    OperationQueue.synchronize executor (syncIter executor e.max_retries (.stored [e]))
      = (Except.ok { total_operations := 1, successful := 0, failed := 1, retried := 0 },
         .stored []) := by
  have hstate : ∀ k, k ≤ e.max_retries →
      syncIter executor k (.stored [e]) = .stored [{ e with retry_count := k }] := by
    intro k hk
    have hs := syncIter_single executor hR k e (by omega)
    rw [h0] at hs
    rw [hs]
    simp
  have hlast :
      OperationQueue.synchronize executor (.stored [{ e with retry_count := e.max_retries }])
        = (Except.ok { total_operations := 1, successful := 0, failed := 1, retried := 0 },
           .stored []) := by
    exact synchronize_retry_exhausted executor hR _ (by simp)
  have hdead : ∀ k, e.max_retries < k →
      syncIter executor k (.stored [e]) = .stored [] := by
    intro k hk
    obtain ⟨j, hj⟩ : ∃ j, k = (e.max_retries + 1) + j :=
      ⟨k - (e.max_retries + 1), by omega⟩
    subst hj
    rw [syncIter_add]
    have h1 : syncIter executor (e.max_retries + 1) (.stored [e]) = .stored [] := by
      rw [syncIter_add executor e.max_retries 1]
      rw [hstate e.max_retries le_rfl]
      simp only [syncIter]
      rw [hlast]
    rw [h1, syncIter_nil]
  refine ⟨hstate, ?_, ?_, ?_⟩
  · intro k x hx
    rcases le_or_lt k e.max_retries with hk | hk
    · rw [hstate k hk] at hx
      simp only [QueueFileState.entries, List.mem_singleton] at hx
      subst hx
      simpa using hk
    · rw [hdead k hk] at hx
      simp [QueueFileState.entries] at hx
  · intro k hk
    rw [hstate k (Nat.le_of_lt hk)]
    have hstep := synchronize_retry_step executor hR { e with retry_count := k } (by simpa using hk)
    rw [hstep]
    simp [QueuedOperationEntry.increment_retry]
  · rw [hstate e.max_retries le_rfl]
    exact hlast

/-- Witness for `c5_retry_bound`: a fresh `SetPetLocation` entry
(`max_retries = 3`) under an always-retry executor reaches `retry_count = 3`
after three `synchronize` calls, and the fourth call drops it as failed. -/
theorem c5_retry_bound_witness :
    syncIter (fun _ => OperationResult.Retry "Network error") 3
        (.stored [QueuedOperationEntry.new 7 0 (QueuedOperation.SetPetLocation 1 1)])
      = .stored [{ QueuedOperationEntry.new 7 0 (QueuedOperation.SetPetLocation 1 1) with
                    retry_count := 3 }] ∧
    OperationQueue.synchronize (fun _ => OperationResult.Retry "Network error")
        (syncIter (fun _ => OperationResult.Retry "Network error") 3
          (.stored [QueuedOperationEntry.new 7 0 (QueuedOperation.SetPetLocation 1 1)]))
      = (Except.ok { total_operations := 1, successful := 0, failed := 1, retried := 0 },
         .stored []) := by
  have h := c5_retry_bound (fun _ => OperationResult.Retry "Network error")
    (fun op => ⟨"Network error", rfl⟩)
    (QueuedOperationEntry.new 7 0 (QueuedOperation.SetPetLocation 1 1)) rfl
  exact ⟨h.1 3 (by decide), h.2.2.2⟩

/-- Claim C6: under an executor reporting success for every operation, one
`synchronize` call on a stored queue of `n` entries invokes the executor once
per entry in enqueue order (the invocation trace is exactly the entries'
operations, in order), persists an empty queue, and returns the summary
`total = n, succeeded = n, failed = 0, retried = 0`. -/
theorem c6_all_success_sync (executor : QueuedOperation → OperationResult)
    (h : ∀ op, executor op = OperationResult.Success)
    (q : List QueuedOperationEntry) :
    (syncLoop executor q).trace = q.map (fun x => x.operation) ∧
    OperationQueue.synchronize executor (.stored q)
      = (Except.ok { total_operations := q.length, successful := q.length,
                     failed := 0, retried := 0 },
         .stored []) := by
  have hl := syncLoop_all_success executor h q
  constructor
  · rw [hl]
  · cases q with
    | nil => rfl
    | cons a as =>
      simp [OperationQueue.synchronize, OperationQueue.load_queue, hl,
        OperationQueue.save_queue]

/-- Witness for `c6_all_success_sync` on a two-entry queue. -/
theorem c6_all_success_sync_witness :
    (syncLoop (fun _ => OperationResult.Success)
        [QueuedOperationEntry.new 0 0 (QueuedOperation.SetPetLocation 1 1),
         QueuedOperationEntry.new 1 0 (QueuedOperation.SetDeviceLockState 5 2)]).trace
      = [QueuedOperation.SetPetLocation 1 1, QueuedOperation.SetDeviceLockState 5 2] ∧
    OperationQueue.synchronize (fun _ => OperationResult.Success)
        (.stored [QueuedOperationEntry.new 0 0 (QueuedOperation.SetPetLocation 1 1),
                  QueuedOperationEntry.new 1 0 (QueuedOperation.SetDeviceLockState 5 2)])
      = (Except.ok { total_operations := 2, successful := 2, failed := 0, retried := 0 },
         .stored []) := by
  have h := c6_all_success_sync (fun _ => OperationResult.Success) (fun op => rfl)
    [QueuedOperationEntry.new 0 0 (QueuedOperation.SetPetLocation 1 1),
     QueuedOperationEntry.new 1 0 (QueuedOperation.SetDeviceLockState 5 2)]
  exact ⟨h.1, h.2⟩

/-- Claim C7: an entry whose replay is classified as a permanent failure
(`Fail`) is removed by `synchronize` regardless of its current retry counter
— wherever it sits in the queue, the persisted result is the kept entries of
the surrounding queue with the failing entry absent (no incremented copy of
it is kept), it is invoked exactly once, and the tally credits exactly one
additional failure for it. -/
theorem c7_permanent_fail_drop (executor : QueuedOperation → OperationResult)
    (q1 q2 : List QueuedOperationEntry) (e : QueuedOperationEntry) (msg : String)
    (h : executor e.operation = OperationResult.Fail msg) :
    (syncLoop executor (q1 ++ e :: q2)).trace
        = (syncLoop executor q1).trace ++ e.operation :: (syncLoop executor q2).trace ∧
    (syncLoop executor (q1 ++ e :: q2)).kept
        = (syncLoop executor q1).kept ++ (syncLoop executor q2).kept ∧
    (syncLoop executor (q1 ++ e :: q2)).failed
        = (syncLoop executor q1).failed + (syncLoop executor q2).failed + 1 ∧
    OperationQueue.synchronize executor (.stored (q1 ++ e :: q2))
      = (Except.ok
          { total_operations := q1.length + q2.length + 1
            successful := (syncLoop executor q1).successful + (syncLoop executor q2).successful
            failed := (syncLoop executor q1).failed + (syncLoop executor q2).failed + 1
            retried := (syncLoop executor q1).retried + (syncLoop executor q2).retried },
         .stored ((syncLoop executor q1).kept ++ (syncLoop executor q2).kept)) := by
  have hmid : syncLoop executor (e :: q2)
      = { trace := e.operation :: (syncLoop executor q2).trace
          kept := (syncLoop executor q2).kept
          successful := (syncLoop executor q2).successful
          failed := (syncLoop executor q2).failed + 1
          retried := (syncLoop executor q2).retried } := by
    simp [syncLoop, h]
  have happ := syncLoop_append executor q1 (e :: q2)
  rw [hmid] at happ
  simp only [] at happ
  refine ⟨?_, ?_, ?_, ?_⟩
  · rw [happ]
  · rw [happ]
  · simp only [happ]
    omega
  · simp only [OperationQueue.synchronize, OperationQueue.load_queue,
      OperationQueue.save_queue, happ]
    have hlen : (q1 ++ e :: q2).length = q1.length + q2.length + 1 := by
      simp [List.length_append]
      omega
    simp [hlen, SyncResult.mk.injEq, Prod.ext_iff]
    all_goals omega

/-- Witness for `c7_permanent_fail_drop` on a singleton queue. -/
theorem c7_permanent_fail_drop_witness :
    OperationQueue.synchronize (fun _ => OperationResult.Fail "validation error")
        (.stored [QueuedOperationEntry.new 0 0 (QueuedOperation.SetPetLocation 1 1)])
      = (Except.ok { total_operations := 1, successful := 0, failed := 1, retried := 0 },
         .stored []) := by
  have h := c7_permanent_fail_drop (fun _ => OperationResult.Fail "validation error")
    [] [] (QueuedOperationEntry.new 0 0 (QueuedOperation.SetPetLocation 1 1))
    "validation error" rfl
  exact h.2.2.2

/-- `n` successful enqueues starting from an empty stored queue file append
exactly the `buildEntries` list and return its ids, threading the uuid
counter. -/
lemma enqueueAll_stored (now : Int) :
    ∀ (ops : List QueuedOperation) (q : List QueuedOperationEntry) (c : Nat),
      enqueueAll { file := .stored q, nextUuid := c } now ops
        = Except.ok ({ file := .stored (q ++ buildEntries c now ops),
                       nextUuid := c + ops.length },
            (buildEntries c now ops).map (fun x => x.id)) := by
  intro ops
  induction ops with
  | nil =>
    intro q c
    simp [enqueueAll, buildEntries]
  | cons op ops ih =>
    intro q c
    simp only [enqueueAll, OperationQueue.enqueue, OperationQueue.load_queue,
      OperationQueue.save_queue]
    rw [ih (q ++ [QueuedOperationEntry.new c now op]) (c + 1)]
    simp [buildEntries, QueuedOperationEntry.new, QueueState.mk.injEq]
    omega

/-- The operations of the appended entries are the enqueued operations, in
order. -/
lemma buildEntries_map_operation (now : Int) :
    ∀ (ops : List QueuedOperation) (c : Nat),
      (buildEntries c now ops).map (fun x => x.operation) = ops := by
  intro ops
  induction ops with
  | nil => intro c; rfl
  | cons op ops ih =>
    intro c
    simp [buildEntries, QueuedOperationEntry.new, ih]

/-- The ids of the appended entries are the consecutive uuid indices. -/
lemma buildEntries_map_id (now : Int) :
    ∀ (ops : List QueuedOperation) (c : Nat),
      (buildEntries c now ops).map (fun x => x.id) = List.range' c ops.length := by
  intro ops
  induction ops with
  | nil => intro c; rfl
  | cons op ops ih =>
    intro c
    simp [buildEntries, QueuedOperationEntry.new, ih, List.range'_succ]

/-- Claim C8: starting from an empty stored queue file, `n` enqueues (with no
storage failure) all succeed and leave a persisted queue of exactly `n`
entries whose operations are the enqueued operations in the same relative
order; each entry is fresh (`retry_count = 0`, `max_retries = 3`, the
hard-coded constructor default) and carries a freshly generated id, the ids
are pairwise distinct, and the list of ids returned to the callers is
exactly the ids of the persisted entries in order. -/
theorem c8_enqueue_append_only (ops : List QueuedOperation) (c : Nat) (now : Int) :
    enqueueAll { file := .stored [], nextUuid := c } now ops
      = Except.ok ({ file := .stored (buildEntries c now ops),
                     nextUuid := c + ops.length },
          (buildEntries c now ops).map (fun x => x.id)) ∧
    (buildEntries c now ops).length = ops.length ∧
    (buildEntries c now ops).map (fun x => x.operation) = ops ∧
    (∀ x ∈ buildEntries c now ops, x.retry_count = 0 ∧ x.max_retries = 3) ∧
    ((buildEntries c now ops).map (fun x => x.id)).Nodup := by
  refine ⟨?_, ?_, buildEntries_map_operation now ops c, ?_, ?_⟩
  · have h := enqueueAll_stored now ops [] c
    simpa using h
  · have h := congrArg List.length (buildEntries_map_operation now ops c)
    simpa using h
  · intro x hx
    induction ops generalizing c with
    | nil => simp [buildEntries] at hx
    | cons op ops ih =>
      simp only [buildEntries, List.mem_cons] at hx
      rcases hx with hx | hx
      · subst hx
        exact ⟨rfl, rfl⟩
      · exact ih (c + 1) hx
  · rw [buildEntries_map_id]
    exact List.nodup_range' c ops.length

/-- Claim C9 (counterexample): with duplicate requested identifiers, the
re-derived batch is not the sub-list of requested items with failed
identifiers.  Requesting `[{pet 1 → 10}, {pet 1 → 20}]` and receiving both
reported failed, the orchestrator enqueues `[{pet 1 → 10}, {pet 1 → 10}]`
(each failed identifier resolves to the *first* matching requested item):
the failed item `{pet 1 → 20}` — whose identifier appears in the failed set
— is absent from the enqueued batch, which instead repeats `{pet 1 → 10}`. -/
theorem c9_failed_sublist_counterexample :
    failedPetUpdates [{ id := 1, error := "e" }, { id := 1, error := "e" }]
        [{ pet_id := 1, location := 10 }, { pet_id := 1, location := 20 }]
      = [{ pet_id := 1, location := 10 }, { pet_id := 1, location := 10 }] ∧
    ({ pet_id := 1, location := 20 } : PetLocationUpdate) ∈
      [({ pet_id := 1, location := 10 } : PetLocationUpdate),
       { pet_id := 1, location := 20 }] ∧
    (1 : Nat) ∈
      ([{ id := 1, error := "e" }, { id := 1, error := "e" }] : List BatchError).map
        (fun x => x.id) ∧
    ({ pet_id := 1, location := 20 } : PetLocationUpdate) ∉
      failedPetUpdates [{ id := 1, error := "e" }, { id := 1, error := "e" }]
        [{ pet_id := 1, location := 10 }, { pet_id := 1, location := 20 }] ∧
    (OfflineManager.batch_set_pet_locations
        (Except.ok { successful := [],
                     failed := [{ id := 1, error := "e" }, { id := 1, error := "e" }],
                     total_processed := 2 })
        [{ pet_id := 1, location := 10 }, { pet_id := 1, location := 20 }]
        { file := .stored [], nextUuid := 0 } 0).2.file
      = .stored [{ id := 0,
                   operation := QueuedOperation.BatchSetPetLocations
                     [{ pet_id := 1, location := 10 }, { pet_id := 1, location := 10 }],
                   queued_at := 0, retry_count := 0, max_retries := 3 }] := by
  decide

/-- Membership in the failed-sublist re-derivation pattern
`errs.filterMap (fun err => items.find? (fun x => key x == err.id))`: when the
requested items have pairwise distinct keys, the derived list contains
exactly the requested items whose key appears among the failed ids. -/
lemma mem_failed_filterMap {α : Type} (key : α → Nat) (items : List α)
    (errs : List BatchError) (hU : (items.map key).Nodup) (u : α) :
    u ∈ errs.filterMap (fun err => items.find? (fun x => key x == err.id)) ↔
      (u ∈ items ∧ key u ∈ errs.map (fun err => err.id)) := by
  constructor
  · intro hu
    rcases List.mem_filterMap.mp hu with ⟨err, herr, hfind⟩
    have hmem := List.mem_of_find?_eq_some hfind
    have hpred := List.find?_some hfind
    have hkey : key u = err.id := by simpa using hpred
    refine ⟨hmem, ?_⟩
    rw [hkey]
    exact List.mem_map_of_mem _ herr
  · rintro ⟨hu, hid⟩
    rcases List.mem_map.mp hid with ⟨err, herr, hmap⟩
    apply List.mem_filterMap.mpr
    refine ⟨err, herr, ?_⟩
    have hsome : (items.find? (fun x => key x == err.id)).isSome := by
      rw [List.find?_isSome]
      exact ⟨u, hu, by simp [hmap]⟩
    rcases Option.isSome_iff_exists.mp hsome with ⟨u0, h0⟩
    have h0mem := List.mem_of_find?_eq_some h0
    have h0pred := List.find?_some h0
    have h0key : key u0 = err.id := by simpa using h0pred
    have heq : u0 = u := List.inj_on_of_nodup_map hU h0mem hu (by rw [h0key, hmap])
    rw [h0, heq]

/-- Claim C9 (amended): when the requested identifiers are pairwise distinct
and the failed ids are disjoint from the reported-successful ids, the
orchestrator enqueues as one new batch operation a list containing exactly
those requested items whose identifier appears in the failed set (ordered by
the failed set; with duplicate requested identifiers each failed id resolves
only to the first matching requested item) — and no item whose identifier is
outside the failed set, in particular no successfully-reported item, is ever
part of the enqueued batch.  This holds for both `batch_set_pet_locations`
and `batch_device_control`. -/
theorem c9_failed_sublist_amended
    (result : BatchResult) (updates : List PetLocationUpdate)
    (hU : (updates.map (fun u => u.pet_id)).Nodup)
    (hdisj : ∀ i ∈ result.failed.map (fun x => x.id), i ∉ result.successful)
    (q : List QueuedOperationEntry) (c : Nat) (now : Int)
    (hne : failedPetUpdates result.failed updates ≠ []) :
    (∀ u, u ∈ failedPetUpdates result.failed updates ↔
      (u ∈ updates ∧ u.pet_id ∈ result.failed.map (fun x => x.id))) ∧
    (∀ u ∈ failedPetUpdates result.failed updates, u.pet_id ∉ result.successful) ∧
    OfflineManager.batch_set_pet_locations (Except.ok result) updates
        { file := .stored q, nextUuid := c } now
      = (Except.ok (),
         { file := .stored (q ++ [QueuedOperationEntry.new c now
             (QueuedOperation.BatchSetPetLocations (failedPetUpdates result.failed updates))])
           nextUuid := c + 1 }) ∧
    (∀ commands : List DeviceCommand,
      (commands.map (fun x => x.device_id)).Nodup →
      ∀ u, u ∈ failedDeviceCommands result.failed commands ↔
        (u ∈ commands ∧ u.device_id ∈ result.failed.map (fun x => x.id))) ∧
    (∀ commands : List DeviceCommand,
      failedDeviceCommands result.failed commands ≠ [] →
      OfflineManager.batch_device_control (Except.ok result) commands
          { file := .stored q, nextUuid := c } now
        = (Except.ok (),
           { file := .stored (q ++ [QueuedOperationEntry.new c now
               (QueuedOperation.BatchDeviceControl (failedDeviceCommands result.failed commands))])
             nextUuid := c + 1 })) := by
  have hmemP : ∀ u, u ∈ failedPetUpdates result.failed updates ↔
      (u ∈ updates ∧ u.pet_id ∈ result.failed.map (fun x => x.id)) := by
    intro u
    unfold failedPetUpdates
    exact mem_failed_filterMap (fun x => x.pet_id) updates result.failed hU u
  have hfE : result.failed.isEmpty = false := by
    cases hf : result.failed with
    | nil => exact absurd (by simp [failedPetUpdates, hf]) hne
    | cons a l => simp
  refine ⟨hmemP, ?_, ?_, ?_, ?_⟩
  · intro u hu
    exact hdisj u.pet_id ((hmemP u).mp hu).2
  · have hE2 : (failedPetUpdates result.failed updates).isEmpty = false := by
      cases hx : failedPetUpdates result.failed updates with
      | nil => exact absurd hx hne
      | cons a l => simp
    simp [OfflineManager.batch_set_pet_locations, hfE, hE2,
      OperationQueue.enqueue, OperationQueue.load_queue, OperationQueue.save_queue]
  · intro commands hUc u
    unfold failedDeviceCommands
    exact mem_failed_filterMap (fun x => x.device_id) commands result.failed hUc u
  · intro commands hne2
    have hE2 : (failedDeviceCommands result.failed commands).isEmpty = false := by
      cases hx : failedDeviceCommands result.failed commands with
      | nil => exact absurd hx hne2
      | cons a l => simp
    simp [OfflineManager.batch_device_control, hfE, hE2,
      OperationQueue.enqueue, OperationQueue.load_queue, OperationQueue.save_queue]

/-- Witness for `c9_failed_sublist_amended`: distinct requested pets 1 and 2,
pet 1 reported failed and pet 2 reported successful — exactly the pet-1 item
is enqueued as a new batch. -/
theorem c9_failed_sublist_amended_witness :
    OfflineManager.batch_set_pet_locations
        (Except.ok { successful := [2], failed := [{ id := 1, error := "e" }],
                     total_processed := 2 })
        [{ pet_id := 1, location := 10 }, { pet_id := 2, location := 20 }]
        { file := .stored [], nextUuid := 0 } 0
      = (Except.ok (),
         { file := .stored
             [{ id := 0,
                operation := QueuedOperation.BatchSetPetLocations
                  [{ pet_id := 1, location := 10 }],
                queued_at := 0, retry_count := 0, max_retries := 3 }],
           nextUuid := 1 }) ∧
    ∀ u ∈ failedPetUpdates [{ id := 1, error := "e" }]
        [({ pet_id := 1, location := 10 } : PetLocationUpdate), { pet_id := 2, location := 20 }],
      u.pet_id ∉ [2] := by
  have h := c9_failed_sublist_amended
    { successful := [2], failed := [{ id := 1, error := "e" }], total_processed := 2 }
    [{ pet_id := 1, location := 10 }, { pet_id := 2, location := 20 }]
    (by decide) (by decide) [] 0 0 (by decide)
  exact ⟨h.2.2.1, h.2.1⟩

/-- Claim C10: during reconciliation, a queued batch entry whose replay
returns `Ok` carrying a partial result — even one with a non-empty failed set
— is classified `Success` by the replay executor, so `synchronize` drops the
whole entry, counts it successful, and requeues nothing: the failed-sublist
re-derivation never happens on the replay path. -/
theorem c10_replay_partial_batch_success (env : RemoteOutcomes)
    (updates : List PetLocationUpdate) (r1 : BatchResult)
    (hok1 : env.batch_set_pet_locations updates = Except.ok r1)
    (_hfail1 : r1.failed ≠ [])
    (commands : List DeviceCommand) (r2 : BatchResult)
    (hok2 : env.batch_device_control commands = Except.ok r2)
    (_hfail2 : r2.failed ≠ []) :
    sync_executor env (QueuedOperation.BatchSetPetLocations updates)
      = OperationResult.Success ∧
    sync_executor env (QueuedOperation.BatchDeviceControl commands)
      = OperationResult.Success ∧
    (∀ e : QueuedOperationEntry,
      e.operation = QueuedOperation.BatchSetPetLocations updates →
      OperationQueue.synchronize (sync_executor env) (.stored [e])
        = (Except.ok { total_operations := 1, successful := 1, failed := 0, retried := 0 },
           .stored [])) ∧
    (∀ e : QueuedOperationEntry,
      e.operation = QueuedOperation.BatchDeviceControl commands →
      OperationQueue.synchronize (sync_executor env) (.stored [e])
        = (Except.ok { total_operations := 1, successful := 1, failed := 0, retried := 0 },
           .stored [])) := by
  have h1 : sync_executor env (QueuedOperation.BatchSetPetLocations updates)
      = OperationResult.Success := by
    simp [sync_executor, hok1]
  have h2 : sync_executor env (QueuedOperation.BatchDeviceControl commands)
      = OperationResult.Success := by
    simp [sync_executor, hok2]
  refine ⟨h1, h2, ?_, ?_⟩
  · intro e hop
    simp [OperationQueue.synchronize, OperationQueue.load_queue, syncLoop,
      hop, h1, OperationQueue.save_queue]
  · intro e hop
    simp [OperationQueue.synchronize, OperationQueue.load_queue, syncLoop,
      hop, h2, OperationQueue.save_queue]

/-- Witness for `c10_replay_partial_batch_success`: a replay environment
whose batch calls return `Ok` with one failed sub-item each — the queued
batch entries are dropped as successes. -/
theorem c10_replay_partial_batch_success_witness :
    OperationQueue.synchronize
        (sync_executor
          { set_pet_location := fun _ _ => Except.ok ()
            set_lock_state := fun _ _ => Except.ok ()
            set_curfew := fun _ _ => Except.ok ()
            batch_set_pet_locations := fun _ =>
              Except.ok { successful := [], failed := [{ id := 1, error := "e" }],
                          total_processed := 1 }
            batch_device_control := fun _ =>
              Except.ok { successful := [], failed := [{ id := 2, error := "e" }],
                          total_processed := 1 } })
        (.stored [QueuedOperationEntry.new 0 0
          (QueuedOperation.BatchSetPetLocations [{ pet_id := 1, location := 10 }])])
      = (Except.ok { total_operations := 1, successful := 1, failed := 0, retried := 0 },
         .stored []) := by
  have h := c10_replay_partial_batch_success
    { set_pet_location := fun _ _ => Except.ok ()
      set_lock_state := fun _ _ => Except.ok ()
      set_curfew := fun _ _ => Except.ok ()
      batch_set_pet_locations := fun _ =>
        Except.ok { successful := [], failed := [{ id := 1, error := "e" }],
                    total_processed := 1 }
      batch_device_control := fun _ =>
        Except.ok { successful := [], failed := [{ id := 2, error := "e" }],
                    total_processed := 1 } }
    [{ pet_id := 1, location := 10 }]
    { successful := [], failed := [{ id := 1, error := "e" }], total_processed := 1 }
    rfl (by decide)
    [] { successful := [], failed := [{ id := 2, error := "e" }], total_processed := 1 }
    rfl (by decide)
  exact h.2.2.1 (QueuedOperationEntry.new 0 0
    (QueuedOperation.BatchSetPetLocations [{ pet_id := 1, location := 10 }])) rfl

end RustyPet
